import Mathlib

/-!
Verification of the camera Action Invocation & Presentation Model of the
frigate web UI, as implemented in
`web/src/components/dynamic/ActionIconMap.ts` and
`web/src/components/dynamic/CameraActions.tsx`.

The TypeScript is shallowly embedded: icon components become opaque values
tagged with their import name, the React render becomes a pure function from
the props and the `executingAction` state to a descriptor tree plus the list
of `console.warn` diagnostics it emits, and the async `executeAction` handler
becomes a pure function from the request outcome to the ordered list of
observable events (state updates, the POST, toasts, console errors).
-/

namespace FrigateCameraActions

/-- An icon renderer (an `IconType` in the source). Each imported icon
component is opaque to this model; we tag it with its import name. -/
structure IconType where
  importName : String
deriving DecidableEq, Repr

/-- The designated default/fallback icon (`FaPlay` in the source). -/
def FaPlay : IconType := ⟨"FaPlay"⟩

/-- The keys of `ICON_MAP` in `ActionIconMap.ts`, in source order: the
FontAwesome block, the Material Design block, then the Lucide block. -/
def ICON_KEYS : List String :=
  [ "FaLightbulb", "FaBell", "FaBullhorn", "FaLock", "FaUnlock", "FaPlay",
    "FaPause", "FaStop", "FaPowerOff", "FaHome", "FaCar", "FaCamera",
    "FaVolumeUp", "FaVolumeMute", "FaVideo", "FaVideoSlash", "FaBolt",
    "FaShieldAlt", "FaEye", "FaEyeSlash", "FaToggleOn", "FaToggleOff",
    "FaWifi", "FaTimes", "FaRecordVinyl", "FaMicrophone", "FaMicrophoneSlash",
    "FaPhoneVolume", "FaClock", "FaExclamationTriangle", "FaCheckCircle",
    "FaTimesCircle", "FaArrowUp", "FaArrowDown", "FaArrowLeft", "FaArrowRight",
    "FaExpand", "FaCompress", "FaSearchPlus", "FaSearchMinus", "FaCog",
    "FaTrash", "FaEdit", "FaSave", "FaRedo", "FaSync", "FaDownload",
    "FaUpload",
    "MdLightMode", "MdDarkMode", "MdNotifications", "MdNotificationsOff",
    "MdSecurity", "MdLock", "MdLockOpen", "MdAlarm", "MdAlarmOff",
    "MdVolumeUp", "MdVolumeOff", "MdPlayArrow", "MdPause", "MdStop",
    "MdPowerSettingsNew", "MdHome", "MdDirectionsCar", "MdCamera",
    "MdCameraAlt", "MdFlashOn", "MdFlashOff", "MdVisibility",
    "MdVisibilityOff", "MdWifi", "MdWifiOff", "MdMic", "MdMicOff", "MdPhone",
    "MdPhoneDisabled", "MdWarning", "MdCheckCircle", "MdCancel",
    "MdKeyboardArrowUp", "MdKeyboardArrowDown", "MdKeyboardArrowLeft",
    "MdKeyboardArrowRight", "MdFullscreen", "MdFullscreenExit", "MdZoomIn",
    "MdZoomOut", "MdSettings", "MdDelete", "MdEdit", "MdSave", "MdRefresh",
    "MdSync", "MdDownload", "MdUpload",
    "LuLightbulb", "LuBell", "LuMegaphone", "LuLock", "LuLockOpen", "LuPlay",
    "LuPause", "LuSquare", "LuPower", "LuHouse", "LuCar", "LuCamera",
    "LuVolumeX", "LuVolume2", "LuVideo", "LuVideoOff", "LuZap", "LuShield",
    "LuEye", "LuEyeOff", "LuToggleLeft", "LuToggleRight", "LuWifi",
    "LuWifiOff", "LuMic", "LuMicOff", "LuPhone", "LuPhoneOff", "LuClock",
    "LuTriangleAlert", "LuCircleCheck", "LuCircleX", "LuArrowUp",
    "LuArrowDown", "LuArrowLeft", "LuArrowRight", "LuExpand", "LuShrink",
    "LuZoomIn", "LuZoomOut", "LuSettings", "LuTrash", "LuPencil", "LuSave",
    "LuRefreshCw", "LuDownload", "LuUpload" ]

/-- The static `ICON_MAP` of `ActionIconMap.ts`: each shorthand entry
`{ Name }` maps the key string to the icon component imported under that
same name, here modelled as `IconType.mk` of the key. -/
def ICON_MAP : List (String × IconType) := ICON_KEYS.map (fun k => (k, IconType.mk k))

/-- The `console.warn` text emitted by `getActionIcon` for an unknown name. -/
def iconWarnText (n : String) : String :=
  s!"Icon \"{n}\" not found in ICON_MAP. Using FaPlay as fallback."

/-- The source `getActionIcon(iconName?: string): IconType`. The result is
paired with the list of `console.warn` diagnostics the call emits. The JS
guard `if (!iconName)` is true both for `undefined` (here `none`) and for the
empty string, since `""` is falsy; only after that guard is `ICON_MAP`
consulted, and a miss warns once and falls back to `FaPlay`. -/
def getActionIcon : Option String → IconType × List String
  | none => (FaPlay, [])
  | some iconName =>
    if iconName == "" then
      (FaPlay, [])
    else
      match ICON_MAP.lookup iconName with
      | some ic => (ic, [])
      | none => (FaPlay, [iconWarnText iconName])

/-- One configured camera action (entry of `camera.actions.actions`). -/
structure Action where
  name : String
  icon : Option String
  standalone : Bool
deriving DecidableEq, Repr

/-- The source `actions.filter(action => action.standalone)`. -/
def standaloneActions (actions : List Action) : List Action :=
  actions.filter (fun action => action.standalone)

/-- The source `actions.filter(action => !action.standalone)`. -/
def dropdownActions (actions : List Action) : List Action :=
  actions.filter (fun action => !action.standalone)

/-- Outcome of the awaited `axios.post` for one trigger: either a well-formed
response carrying `data.success` and the optional `data.message`, or a
thrown transport/unexpected error. -/
inductive TriggerOutcome where
  | response (success : Bool) (message : Option String)
  | thrown (err : String)
deriving DecidableEq, Repr

/-- JS `m || fallback` on the optional message string: the fallback is used
when the message is absent or empty (falsy). -/
def jsOrElse (m : Option String) (fallback : String) : String :=
  match m with
  | none => fallback
  | some s => if s == "" then fallback else s

/-- Success toast text `Action "<name>" executed successfully`. -/
def successText (n : String) : String := s!"Action \"{n}\" executed successfully"

/-- Fallback error toast text `Failed to execute action "<name>"`. -/
def failText (n : String) : String := s!"Failed to execute action \"{n}\""

/-- Trigger URL `camera/<cameraName>/actions/<actionName>/trigger`. -/
def triggerUrl (cameraName actionName : String) : String :=
  s!"camera/{cameraName}/actions/{actionName}/trigger"

/-- One observable event of `executeAction`: a `setExecutingAction` call, the
POST request, a toast, or a `console.error`. -/
inductive Event where
  | setExecuting (s : Option String)
  | post (url : String)
  | toastSuccess (message : String) (position : String) (duration : Nat)
  | toastError (message : String) (position : String) (duration : Nat)
  | consoleError (ctx : String) (err : String)
deriving DecidableEq, Repr

/-- The source `executeAction` handler, as the ordered list of observable
events of one invocation with the given outcome of the awaited POST:
`setExecutingAction(actionName)`, then the POST; on a well-formed response
either the success toast or the error toast built with `||` fallback; on a
throw the `console.error` and the fallback error toast; and in the `finally`
block always `setExecutingAction(null)`. -/
def executeAction (cameraName actionName : String) (outcome : TriggerOutcome) : List Event :=
  Event.setExecuting (some actionName) ::
  Event.post (triggerUrl cameraName actionName) ::
  (match outcome with
   | TriggerOutcome.response success message =>
     if success then
       [Event.toastSuccess (successText actionName) "top-center" 3000]
     else
       [Event.toastError (jsOrElse message (failText actionName)) "top-center" 5000]
   | TriggerOutcome.thrown err =>
     [Event.consoleError "Error executing camera action:" err,
      Event.toastError (failText actionName) "top-center" 5000])
  ++ [Event.setExecuting none]

/-- The `setExecutingAction` updates of an event list, in order. -/
def stateUpdates (evs : List Event) : List (Option String) :=
  evs.filterMap (fun e =>
    match e with
    | Event.setExecuting s => some s
    | _ => none)

/-- The toasts of an event list, in order. -/
def toastsOf (evs : List Event) : List Event :=
  evs.filter (fun e =>
    match e with
    | Event.toastSuccess _ _ _ => true
    | Event.toastError _ _ _ => true
    | _ => false)

/-- The `console.error` records of an event list, in order. -/
def consoleErrorsOf (evs : List Event) : List Event :=
  evs.filter (fun e =>
    match e with
    | Event.consoleError _ _ => true
    | _ => false)

/-- The `executingAction` state after an event list runs from `init`. -/
def finalExecuting (init : Option String) (evs : List Event) : Option String :=
  evs.foldl (fun st e =>
    match e with
    | Event.setExecuting s => s
    | _ => st) init

/-- Label used while an action executes: `Executing <name>...`. -/
def executingLabel (n : String) : String := s!"Executing {n}..."

/-- One rendered `CameraFeatureToggle` element for a standalone action, keeping
its behavioural props (styling `className` is omitted). `onClickAction` is the
action name the `onClick` closure passes to `executeAction`. -/
structure FeatureToggle where
  variant : String
  Icon : IconType
  isActive : Bool
  title : String
  onClickAction : String
  disabled : Bool
deriving DecidableEq, Repr

/-- One rendered `DropdownMenuItem` for a grouped action. `selectAction` is
what the guarded `onSelect` closure would do at this render's state: `some`
of the action name it passes to `executeAction` when
`cameraEnabled && !isExecuting`, otherwise nothing. -/
structure MenuItem where
  key : String
  disabled : Bool
  selectAction : Option String
  icon : IconType
  label : String
deriving DecidableEq, Repr

/-- One element of the `components` array: a standalone toggle or the single
dropdown menu holding its items. -/
inductive Component where
  | featureToggle (t : FeatureToggle)
  | dropdownMenu (items : List MenuItem)
deriving DecidableEq, Repr

/-- The `CameraFeatureToggle` built for one standalone action (the body of the
`standaloneActions.map` callback). -/
def mkToggle (fullscreen cameraEnabled : Bool) (executingAction : Option String)
    (action : Action) : FeatureToggle :=
  let isExecuting := executingAction == some action.name
  { variant := if fullscreen then "overlay" else "primary"
    Icon := (getActionIcon action.icon).1
    isActive := isExecuting
    title := if isExecuting then executingLabel action.name else action.name
    onClickAction := action.name
    disabled := !cameraEnabled || isExecuting }

/-- The `DropdownMenuItem` built for one grouped action (the body of the
`dropdownActions.map` callback inside `renderDropdownMenu`). -/
def mkMenuItem (cameraEnabled : Bool) (executingAction : Option String)
    (action : Action) : MenuItem :=
  let isExecuting := executingAction == some action.name
  { key := action.name
    disabled := !cameraEnabled || isExecuting
    selectAction := if cameraEnabled && !isExecuting then some action.name else none
    icon := (getActionIcon action.icon).1
    label := if isExecuting then executingLabel action.name else action.name }

/-- The source `renderDropdownMenu`: `null` (here `none`) when there are no
dropdown actions, else one `DropdownMenu` with one item per dropdown action. -/
def renderDropdownMenu (cameraEnabled : Bool) (executingAction : Option String)
    (dropdownActs : List Action) : Option Component :=
  if dropdownActs.length == 0 then
    none
  else
    some (Component.dropdownMenu (dropdownActs.map (mkMenuItem cameraEnabled executingAction)))

/-- The `components` array of `CameraActions`: the standalone toggles in order
followed by `renderDropdownMenu()`, with the `filter(Boolean)` dropping the
`null` menu (here `Option.toList`). -/
def componentsOf (fullscreen cameraEnabled : Bool) (executingAction : Option String)
    (acts : List Action) : List Component :=
  (standaloneActions acts).map
    (fun a => Component.featureToggle (mkToggle fullscreen cameraEnabled executingAction a))
  ++ (renderDropdownMenu cameraEnabled executingAction (dropdownActions acts)).toList

/-- The `console.warn` diagnostics emitted while building `components`: one
`getActionIcon` call per standalone toggle, then, only when the dropdown menu
is rendered at all, one per dropdown item. -/
def renderWarningsOf (acts : List Action) : List String :=
  ((standaloneActions acts).map (fun a => (getActionIcon a.icon).2)).flatten
  ++ (if (dropdownActions acts).length == 0 then []
      else ((dropdownActions acts).map (fun a => (getActionIcon a.icon).2)).flatten)

/-- The `actions` slot of the camera config (`camera.actions` in the source,
whose `.actions` field holds the configured list). -/
structure ActionsConfig where
  actions : List Action
deriving DecidableEq, Repr

/-- The slice of `CameraConfig` the component reads: the camera name and the
optional actions config (`camera.actions?.actions`). -/
structure CameraConfig where
  name : String
  actions : Option ActionsConfig
deriving DecidableEq, Repr

/-- What the component function returns: `null`, a single bare element, or the
array of elements. -/
inductive RenderResult where
  | nothing
  | single (c : Component)
  | many (cs : List Component)
deriving DecidableEq, Repr

/-- The source `CameraActions` component as a pure render: from the props and
the current `executingAction` state to the returned element shape, paired with
the `console.warn` diagnostics emitted while rendering. Returns `null` when no
actions are configured or the list is empty; otherwise builds `components` and
returns `components[0]` bare when its length is one, else the whole array.
Toast notifications never arise here — only `executeAction` emits them. -/
def CameraActions (camera : CameraConfig) (fullscreen cameraEnabled : Bool)
    (executingAction : Option String) : RenderResult × List String :=
  match camera.actions with
  | none => (RenderResult.nothing, [])
  | some cfg =>
    if cfg.actions.length == 0 then
      (RenderResult.nothing, [])
    else
      match componentsOf fullscreen cameraEnabled executingAction cfg.actions with
      | [c] => (RenderResult.single c, renderWarningsOf cfg.actions)
      | cs => (RenderResult.many cs, renderWarningsOf cfg.actions)

/-- The item lists of the dropdown-menu components of a component list. -/
def menusOf (cs : List Component) : List (List MenuItem) :=
  cs.filterMap (fun c =>
    match c with
    | Component.dropdownMenu items => some items
    | _ => none)

/-- A component list made of feature toggles followed by `rest` contributes no
dropdown menus beyond those of `rest`. -/
theorem menusOf_toggle_map {α : Type} (g : α → FeatureToggle) (l : List α)
    (rest : List Component) :
    menusOf (l.map (fun a => Component.featureToggle (g a)) ++ rest) = menusOf rest := by
  induction l with
  | nil => rfl
  | cons x xs ih =>
    simp only [menusOf, List.map_cons, List.cons_append, List.filterMap_cons] at ih ⊢
    exact ih

/-- An empty action list yields an empty component list. -/
theorem componentsOf_nil (f ce : Bool) (exec : Option String) :
    componentsOf f ce exec [] = [] := rfl

/-- C1: every `executeAction` invocation sets the execution state to the
invoked action's name and then, on every outcome path — success response,
well-formed failure response, and thrown error — clears it back to `null` in
the `finally` block, so from any initial state the final state is `null`. -/
theorem execState_cleared_on_all_paths (cam a : String) (o : TriggerOutcome)
    (init : Option String) :
    stateUpdates (executeAction cam a o) = [some a, none] ∧
    finalExecuting init (executeAction cam a o) = none := by
  cases o with
  | response success message =>
    cases success <;> simp [executeAction, stateUpdates, finalExecuting]
  | thrown err => simp [executeAction, stateUpdates, finalExecuting]

/-- Counterexample to C2 as stated: for the well-formed failure response that
carries the present-but-empty server message `""`, the single error toast does
not carry the server-supplied message — the `||` fallback replaces it with
`Failed to execute action "A"`, which is not the empty string. -/
theorem toast_empty_message_counterexample :
    toastsOf (executeAction "cam" "A" (TriggerOutcome.response false (some ""))) =
      [Event.toastError (failText "A") "top-center" 5000] ∧
    failText "A" ≠ "" := by
  exact ⟨rfl, by decide⟩

/-- C2 (amended): each outcome yields exactly one notification — success gives
one success toast with the literal text and 3000 ms; a well-formed failure
gives one error toast whose text is the server message when truthy (non-empty)
and the literal fallback otherwise, with 5000 ms; a thrown error gives one
error toast with the fallback text and 5000 ms plus exactly one recorded
`console.error` diagnostic, while no diagnostic is recorded on the
well-formed paths. -/
theorem toast_on_each_outcome (cam a : String) (m : Option String) (e : String) :
    toastsOf (executeAction cam a (TriggerOutcome.response true m)) =
      [Event.toastSuccess (successText a) "top-center" 3000] ∧
    toastsOf (executeAction cam a (TriggerOutcome.response false m)) =
      [Event.toastError (jsOrElse m (failText a)) "top-center" 5000] ∧
    toastsOf (executeAction cam a (TriggerOutcome.thrown e)) =
      [Event.toastError (failText a) "top-center" 5000] ∧
    consoleErrorsOf (executeAction cam a (TriggerOutcome.thrown e)) =
      [Event.consoleError "Error executing camera action:" e] ∧
    consoleErrorsOf (executeAction cam a (TriggerOutcome.response true m)) = [] ∧
    consoleErrorsOf (executeAction cam a (TriggerOutcome.response false m)) = [] := by
  refine ⟨?_, ?_, ?_, ?_, ?_, ?_⟩ <;> simp [executeAction, toastsOf, consoleErrorsOf]

/-- C10: an empty-string server message on a failure response is falsy, so the
error toast falls back to the literal `Failed to execute action "<name>"`; a
non-empty server message is used verbatim. -/
theorem failure_message_truthiness (cam a m : String) :
    toastsOf (executeAction cam a (TriggerOutcome.response false (some ""))) =
      [Event.toastError (failText a) "top-center" 5000] ∧
    (m ≠ "" →
      toastsOf (executeAction cam a (TriggerOutcome.response false (some m))) =
        [Event.toastError m "top-center" 5000]) := by
  constructor
  · simp [executeAction, toastsOf, jsOrElse]
  · intro h
    simp [executeAction, toastsOf, jsOrElse, h]

/-- Witness for C10 at the concrete failing response `{success:false,
message:"busy"}`. -/
theorem failure_message_truthiness_witness :
    toastsOf (executeAction "front" "A" (TriggerOutcome.response false (some "busy"))) =
      [Event.toastError "busy" "top-center" 5000] :=
  (failure_message_truthiness "front" "A" "busy").2 (by decide)

/-- C3: the partition into standalone and dropdown actions sums lengths to the
input length, each bucket is a sublist of the input (stable order, duplicates
kept), and each bucket holds exactly the actions with the matching
`standalone` flag. -/
theorem partition_stable_and_complete (acts : List Action) :
    (standaloneActions acts).length + (dropdownActions acts).length = acts.length ∧
    (standaloneActions acts).Sublist acts ∧
    (dropdownActions acts).Sublist acts ∧
    (∀ a : Action, a ∈ standaloneActions acts ↔ a ∈ acts ∧ a.standalone = true) ∧
    (∀ a : Action, a ∈ dropdownActions acts ↔ a ∈ acts ∧ a.standalone = false) := by
  refine ⟨?_, List.filter_sublist acts, List.filter_sublist acts, ?_, ?_⟩
  · induction acts with
    | nil => rfl
    | cons x xs ih =>
      by_cases h : x.standalone <;>
        simp [standaloneActions, dropdownActions, List.filter_cons, h] at ih ⊢ <;>
        omega
  · intro a
    simp [standaloneActions, List.mem_filter]
  · intro a
    simp [dropdownActions, List.mem_filter]

/-- Counterexample to C4 as stated: the empty string is a present icon name
that is not a key of `ICON_MAP`, yet `getActionIcon` emits no diagnostic for
it — the JS falsy guard treats it like an absent name. -/
theorem getActionIcon_unknown_empty_counterexample :
    (some "" : Option String) ≠ none ∧
    ICON_MAP.lookup "" = none ∧
    getActionIcon (some "") = (FaPlay, []) := by
  exact ⟨by decide, by decide, rfl⟩

/-- C4 (amended): `getActionIcon` is total and always returns a renderer: the
default `FaPlay` with no diagnostic for an absent or empty name, the mapped
renderer with no diagnostic for a name that is a key of `ICON_MAP`, and for a
non-empty name not in the table the default `FaPlay` together with exactly one
warning diagnostic. -/
theorem getActionIcon_total (n : Option String) :
    (n = none → getActionIcon n = (FaPlay, [])) ∧
    (n = some "" → getActionIcon n = (FaPlay, [])) ∧
    (∀ s : String, n = some s → s ≠ "" →
      (∀ ic : IconType, ICON_MAP.lookup s = some ic → getActionIcon n = (ic, [])) ∧
      (ICON_MAP.lookup s = none → getActionIcon n = (FaPlay, [iconWarnText s]))) := by
  refine ⟨?_, ?_, ?_⟩
  · rintro rfl; rfl
  · rintro rfl; rfl
  · rintro s rfl hs
    constructor
    · intro ic hic
      simp [getActionIcon, hs, hic]
    · intro hnone
      simp [getActionIcon, hs, hnone]

/-- Witness for C4 at a mapped key and at a concrete unknown non-empty name. -/
theorem getActionIcon_total_witness :
    getActionIcon (some "FaLightbulb") = (IconType.mk "FaLightbulb", []) ∧
    getActionIcon (some "NoSuchIcon") = (FaPlay, [iconWarnText "NoSuchIcon"]) :=
  ⟨((getActionIcon_total (some "FaLightbulb")).2.2 "FaLightbulb" rfl (by decide)).1
      (IconType.mk "FaLightbulb") (by decide),
    ((getActionIcon_total (some "NoSuchIcon")).2.2 "NoSuchIcon" rfl (by decide)).2
      (by decide)⟩

/-- C9: the empty string resolves exactly like an absent icon name — the
default `FaPlay` renderer and no diagnostic — because the JS guard
`if (!iconName)` is taken for the falsy empty string before the table is
consulted. -/
theorem empty_icon_name_same_as_absent :
    getActionIcon (some "") = getActionIcon none ∧
    getActionIcon (some "") = (FaPlay, []) ∧
    (getActionIcon (some "")).2 = [] :=
  ⟨rfl, rfl, rfl⟩

/-- C5: the rendered components contain exactly one dropdown menu when the
grouped bucket is non-empty — holding one `mkMenuItem` per grouped action, in
order — and none when it is empty; and on the concrete actions
`{name:"A", standalone:true}` and `{name:"B", standalone:false}` the component
returns the array of one standalone toggle for `A` and one menu containing
`B`. -/
theorem dropdown_menu_formation (f ce : Bool) (exec : Option String) (acts : List Action) :
    menusOf (componentsOf f ce exec acts) =
      (if dropdownActions acts = [] then []
       else [(dropdownActions acts).map (mkMenuItem ce exec)]) ∧
    componentsOf f ce exec [⟨"A", none, true⟩, ⟨"B", none, false⟩] =
      [Component.featureToggle (mkToggle f ce exec ⟨"A", none, true⟩),
       Component.dropdownMenu [mkMenuItem ce exec ⟨"B", none, false⟩]] ∧
    (CameraActions ⟨"cam", some ⟨[⟨"A", none, true⟩, ⟨"B", none, false⟩]⟩⟩ f ce exec).1 =
      RenderResult.many
        [Component.featureToggle (mkToggle f ce exec ⟨"A", none, true⟩),
         Component.dropdownMenu [mkMenuItem ce exec ⟨"B", none, false⟩]] := by
  refine ⟨?_, rfl, rfl⟩
  rw [componentsOf, menusOf_toggle_map]
  cases hd : dropdownActions acts with
  | nil => simp [renderDropdownMenu, menusOf]
  | cons x xs => simp [renderDropdownMenu, menusOf]

/-- C6: whenever the built `components` list has exactly one element, the
component returns that element bare, and whenever it has two or more it
returns the whole list. -/
theorem single_component_unwrapped (camera : CameraConfig) (f ce : Bool)
    (exec : Option String) (cfg : ActionsConfig) (h : camera.actions = some cfg) :
    (∀ c : Component, componentsOf f ce exec cfg.actions = [c] →
      (CameraActions camera f ce exec).1 = RenderResult.single c) ∧
    (2 ≤ (componentsOf f ce exec cfg.actions).length →
      (CameraActions camera f ce exec).1 =
        RenderResult.many (componentsOf f ce exec cfg.actions)) := by
  constructor
  · intro c hc
    have hne : cfg.actions ≠ [] := by
      intro h0
      rw [h0, componentsOf_nil] at hc
      exact List.noConfusion hc
    have hlen : (cfg.actions.length == 0) = false := by
      simp [List.length_eq_zero, hne]
    simp [CameraActions, h, hlen, hc]
  · intro h2
    have hne : cfg.actions ≠ [] := by
      intro h0
      rw [h0, componentsOf_nil] at h2
      simp at h2
    have hlen : (cfg.actions.length == 0) = false := by
      simp [List.length_eq_zero, hne]
    rcases hcs : componentsOf f ce exec cfg.actions with _ | ⟨c1, _ | ⟨c2, rest⟩⟩
    · rw [hcs] at h2; simp at h2
    · rw [hcs] at h2; simp at h2
    · simp [CameraActions, h, hlen, hcs]

/-- Witness for C6: a single standalone action renders as one bare toggle. -/
theorem single_component_unwrapped_witness :
    (CameraActions ⟨"cam", some ⟨[⟨"A", none, true⟩]⟩⟩ false true none).1 =
      RenderResult.single
        (Component.featureToggle (mkToggle false true none ⟨"A", none, true⟩)) :=
  (single_component_unwrapped ⟨"cam", some ⟨[⟨"A", none, true⟩]⟩⟩ false true none
      ⟨[⟨"A", none, true⟩]⟩ rfl).1
    (Component.featureToggle (mkToggle false true none ⟨"A", none, true⟩)) rfl

/-- C7: every rendered control — standalone toggle or dropdown item — is
disabled exactly when the camera is disabled or the execution state equals
that control's action name; the guarded dropdown `onSelect` triggers exactly
under the complementary condition; and when `cameraEnabled` is false every
control is disabled and no dropdown item can trigger, regardless of the
execution state. -/
theorem controls_disabled_iff (f ce : Bool) (exec : Option String) (acts : List Action) :
    (∀ t : FeatureToggle,
      Component.featureToggle t ∈ componentsOf f ce exec acts →
        t.disabled = (!ce || exec == some t.onClickAction)) ∧
    (∀ (items : List MenuItem) (item : MenuItem),
      Component.dropdownMenu items ∈ componentsOf f ce exec acts → item ∈ items →
        item.disabled = (!ce || exec == some item.key) ∧
        item.selectAction =
          (if ce && !(exec == some item.key) then some item.key else none)) ∧
    (ce = false →
      (∀ t : FeatureToggle,
        Component.featureToggle t ∈ componentsOf f ce exec acts → t.disabled = true) ∧
      (∀ (items : List MenuItem) (item : MenuItem),
        Component.dropdownMenu items ∈ componentsOf f ce exec acts → item ∈ items →
          item.disabled = true ∧ item.selectAction = none)) := by
  have h1 : ∀ t : FeatureToggle,
      Component.featureToggle t ∈ componentsOf f ce exec acts →
        t.disabled = (!ce || exec == some t.onClickAction) := by
    intro t ht
    rcases List.mem_append.mp ht with hm | hm
    · obtain ⟨a, _, heq⟩ := List.mem_map.mp hm
      obtain rfl : mkToggle f ce exec a = t := by injection heq
      simp [mkToggle]
    · exfalso
      cases h0 : (dropdownActions acts).length == 0 <;>
        simp [renderDropdownMenu, h0] at hm
  have h2 : ∀ (items : List MenuItem) (item : MenuItem),
      Component.dropdownMenu items ∈ componentsOf f ce exec acts → item ∈ items →
        item.disabled = (!ce || exec == some item.key) ∧
        item.selectAction =
          (if ce && !(exec == some item.key) then some item.key else none) := by
    intro items item hmem hitem
    rcases List.mem_append.mp hmem with hm | hm
    · exfalso
      obtain ⟨a, _, heq⟩ := List.mem_map.mp hm
      exact Component.noConfusion heq
    · cases h0 : (dropdownActions acts).length == 0 with
      | true => simp [renderDropdownMenu, h0] at hm
      | false =>
        simp [renderDropdownMenu, h0] at hm
        subst hm
        obtain ⟨a, _, rfl⟩ := List.mem_map.mp hitem
        exact ⟨rfl, rfl⟩
  refine ⟨h1, h2, ?_⟩
  intro hce
  constructor
  · intro t ht
    rw [h1 t ht, hce]
    rfl
  · intro items item hmem hitem
    obtain ⟨hd, hs⟩ := h2 items item hmem hitem
    rw [hd, hs, hce]
    exact ⟨rfl, rfl⟩

/-- Witness for C7: with the camera disabled, the toggle for standalone `A`
and the menu item for grouped `B` are both disabled, and `B` cannot trigger. -/
theorem controls_disabled_iff_witness :
    (mkToggle false false none ⟨"A", none, true⟩).disabled = true ∧
    (mkMenuItem false none ⟨"B", none, false⟩).disabled = true ∧
    (mkMenuItem false none ⟨"B", none, false⟩).selectAction = none := by
  have h := controls_disabled_iff false false none
    [⟨"A", none, true⟩, ⟨"B", none, false⟩]
  refine ⟨(h.2.2 rfl).1 _ (by decide), ?_, ?_⟩
  · exact ((h.2.2 rfl).2 [mkMenuItem false none ⟨"B", none, false⟩] _
      (by decide) (by decide)).1
  · exact ((h.2.2 rfl).2 [mkMenuItem false none ⟨"B", none, false⟩] _
      (by decide) (by decide)).2

/-- C8: with no configured actions — the `actions` config absent or the list
empty — the component returns `null` and emits no diagnostic; no toast can
arise since rendering never emits one. -/
theorem empty_actions_render_nothing (camera : CameraConfig) (f ce : Bool)
    (exec : Option String) :
    (camera.actions = none →
      CameraActions camera f ce exec = (RenderResult.nothing, [])) ∧
    (∀ cfg : ActionsConfig, camera.actions = some cfg → cfg.actions = [] →
      CameraActions camera f ce exec = (RenderResult.nothing, [])) := by
  constructor
  · intro h
    simp [CameraActions, h]
  · intro cfg h h0
    simp [CameraActions, h, h0]

/-- Witness for C8 at an absent actions config and at an empty action list. -/
theorem empty_actions_render_nothing_witness :
    CameraActions ⟨"cam", none⟩ false true none = (RenderResult.nothing, []) ∧
    CameraActions ⟨"cam", some ⟨[]⟩⟩ false true none = (RenderResult.nothing, []) :=
  ⟨(empty_actions_render_nothing ⟨"cam", none⟩ false true none).1 rfl,
    (empty_actions_render_nothing ⟨"cam", some ⟨[]⟩⟩ false true none).2 ⟨[]⟩ rfl rfl⟩

end FrigateCameraActions
